import Mathlib

/-!
Shallow embedding of the Legal_Document_Analysis repository
(src/mcp_tools.py, src/chatbot.py).

Server side (mcp_tools.py): an in-memory dictionary `SESSIONS` maps a
session id to a record holding the document text and the conversation
history.  The dictionary is modelled as an association list with
dict-style lookup / overwrite / delete operations.  The Anthropic model
backend (`client.messages.create` followed by taking
`response.content[0].text`) is modelled as an oracle of type
`List Message → Nat → Except String String` (messages and max_tokens in,
either the raw reply text or an exception message out); the code's
`.strip()` on the reply is modelled with `String.trim`.  A raised
`HTTPException(status_code=500, detail=...)` is modelled as an
`Except.error` carrying an `HTTPError` record; when an endpoint's
`except` block re-wraps a caught `HTTPException` via `str(e)`, the
model passes the detail text through unchanged.

Client side (chatbot.py): the model-driven tool chooser
(`client.messages.create` with a `choose_tool` tool schema) is modelled
as an oracle from the routing prompt to either an exception message or
the list of response content blocks; a `tool_use` block's `input` dict
is an association list.  The HTTP calls made by `call_mcp_tool` plus the
response-field extraction are modelled as an oracle from (tool name,
user query) to either an exception message or the extracted field text.
-/

/-- One entry of a session's conversation history: a role/content pair. -/
structure Message where
  role : String
  content : String
deriving DecidableEq

/-- The value stored in `SESSIONS` for one session id:
`{"document": ..., "messages": [...]}`. -/
structure Session where
  document : String
  messages : List Message
deriving DecidableEq

/-- The in-memory session dictionary `SESSIONS`, as an association list. -/
abbrev Store := List (String × Session)

/-- Dict lookup: `SESSIONS[id]` / `id in SESSIONS` (first matching key). -/
def lookupSession (st : Store) (id : String) : Option Session :=
  match st with
  | [] => none
  | (k, v) :: rest => if k = id then some v else lookupSession rest id

/-- Dict assignment `SESSIONS[id] = s`: overwrite the existing entry for
`id`, or append a new one. -/
def setSession (st : Store) (id : String) (s : Session) : Store :=
  match st with
  | [] => [(id, s)]
  | (k, v) :: rest => if k = id then (k, s) :: rest else (k, v) :: setSession rest id s

/-- Dict deletion `del SESSIONS[id]` (removes the first matching entry). -/
def delSession (st : Store) (id : String) : Store :=
  match st with
  | [] => []
  | (k, v) :: rest => if k = id then rest else (k, v) :: delSession rest id

/-- Well-formedness of the association-list model of a Python dict:
keys are pairwise distinct. -/
def storeWF (st : Store) : Prop := (st.map Prod.fst).Nodup

instance (st : Store) : Decidable (storeWF st) := by
  unfold storeWF; infer_instance

/-- The Anthropic backend used by the server: given the message list and
`max_tokens`, returns the raw text of `response.content[0].text`, or an
exception message. -/
abbrev Backend := List Message → Nat → Except String String

/-- A raised `fastapi.HTTPException`. -/
structure HTTPError where
  status : Nat
  detail : String
deriving DecidableEq

/-- Whether an `Except` value is a success. -/
def exceptIsOk : Except ε α → Bool
  | .ok _ => true
  | .error _ => false

/-- The `ValueError` text `f"Session {session_id} not initialized with a document"`. -/
def notInitMsg (session_id : String) : String :=
  "Session " ++ session_id ++ " not initialized with a document"

/-- `ask_claude(session_id, prompt, max_tokens)` (mcp_tools.py lines 53-78):
checks the session, appends the user prompt to the session's history,
calls the backend, appends the (stripped) reply, and returns it.  Any
exception is re-raised as `HTTPException(500, str(e))`.  Note that the
user prompt is appended (in place, hence visible in the store) before
the backend call, so a backend failure leaves it in the history. -/
def ask_claude (backend : Backend) (store : Store) (session_id prompt : String)
    (max_tokens : Nat) : Store × Except HTTPError String :=
  match lookupSession store session_id with
  | none => (store, .error ⟨500, notInitMsg session_id⟩)
  | some sess =>
      let messages := sess.messages ++ [⟨"user", prompt⟩]
      match backend messages max_tokens with
      | .error e => (setSession store session_id ⟨sess.document, messages⟩, .error ⟨500, e⟩)
      | .ok raw =>
          let text := raw.trim
          (setSession store session_id
            ⟨sess.document, messages ++ [⟨"assistant", text⟩]⟩, .ok text)

/-- The single seed history entry written by `init_session`. -/
def init_prompt (document : String) : String :=
  "You are a legal assistant. Remember this document for future queries:\n" ++ document

/-- `POST /init_session` (mcp_tools.py lines 82-99): stores
`{"document": document, "messages": [seed user message]}` under the id,
creating or overwriting, and returns the confirmation message. -/
def init_session (store : Store) (session_id document : String) : Store × String :=
  (setSession store session_id ⟨document, [⟨"user", init_prompt document⟩]⟩,
   "Session " ++ session_id ++ " initialized with document.")

/-- The response body of a successful tool endpoint: which JSON field is
returned, holding the pass-through text. -/
inductive ToolResponse where
  | answer (s : String)
  | simplified_document (s : String)
  | analysis (s : String)
  | validation (s : String)
  | key_dates (s : String)
deriving DecidableEq

/-- The `/qa` prompt `f"Answer the user's question based on the remembered
document.\n\nQuestion: {req.question}"`. -/
def qa_prompt (question : String) : String :=
  "Answer the user's question based on the remembered document.\n\nQuestion: " ++ question

/-- `POST /qa` (mcp_tools.py lines 101-112). -/
def answer_question (backend : Backend) (store : Store) (question session_id : String) :
    Store × Except HTTPError ToolResponse :=
  match ask_claude backend store session_id (qa_prompt question) 1024 with
  | (st, .ok t) => (st, .ok (.answer t))
  | (st, .error e) => (st, .error ⟨500, e.detail⟩)

/-- The `/simplify` prompt (a fixed string). -/
def simplify_prompt : String :=
  "Rewrite the remembered legal document in clear, plain language. Keep meaning but remove jargon."

/-- `POST /simplify` (mcp_tools.py lines 114-125). -/
def simplify_document (backend : Backend) (store : Store) (session_id : String) :
    Store × Except HTTPError ToolResponse :=
  match ask_claude backend store session_id simplify_prompt 1024 with
  | (st, .ok t) => (st, .ok (.simplified_document t))
  | (st, .error e) => (st, .error ⟨500, e.detail⟩)

/-- The `/analyze_complications` prompt built from the stored document
(mcp_tools.py lines 139-171; `\x7b\x7b` in the f-string is a literal brace). -/
def analyze_prompt (document : String) : String :=
  "\nYou are a legal contract analyzer.\nONLY analyze the following original document. \nDo NOT hallucinate or provide generic advice.\nIdentify only clauses that could realistically cause legal disputes, lawsuits, or material risks.\n\nDocument:\n"
  ++ document ++
  "\n\nTask:\nReturn JSON with this schema:\n\n\x7b\n  \"issues\": [\n    \x7b\n      \"line_number\": int,\n      \"clause\": str,\n      \"type\": str,\n      \"risk_percent\": int,\n      \"affected_parties\": [str],\n      \"reason\": str,\n      \"suggestion\": str\n    \x7d\n  ],\n  \"overall_rating\": int\n\x7d\n\nRules:\n- Consider all parties.\n- Only report legally problematic clauses.\n- Quote clauses verbatim.\n- Respond ONLY in valid JSON.\n"

/-- `POST /analyze_complications` (mcp_tools.py lines 127-182): checks the
session, then calls the backend directly with a fresh single-message
list (not via `ask_claude`), so the session's stored history is never
touched. -/
def analyze_complications (backend : Backend) (store : Store) (session_id : String) :
    Store × Except HTTPError ToolResponse :=
  match lookupSession store session_id with
  | none => (store, .error ⟨500, notInitMsg session_id⟩)
  | some sess =>
      match backend [⟨"user", analyze_prompt sess.document⟩] 2000 with
      | .error e => (store, .error ⟨500, e⟩)
      | .ok raw => (store, .ok (.analysis raw.trim))

/-- The `/validate_document` prompt built from the stored document
(mcp_tools.py lines 196-209). -/
def validate_prompt (document : String) : String :=
  "\nYou are a legal document classifier.\nONLY analyze the text below. Do NOT hallucinate.\n\nDocument:\n"
  ++ document ++
  "\n\nTask:\nReturn JSON ONLY with these fields:\n\x7b\n  \"is_legal_document\": bool,\n  \"reason\": str\n\x7d\n"

/-- `POST /validate_document` (mcp_tools.py lines 184-214): checks the
session, builds the prompt from the stored document, then goes through
`ask_claude` (which re-checks and appends to the history). -/
def validate_document (backend : Backend) (store : Store) (session_id : String) :
    Store × Except HTTPError ToolResponse :=
  match lookupSession store session_id with
  | none => (store, .error ⟨500, notInitMsg session_id⟩)
  | some sess =>
      match ask_claude backend store session_id (validate_prompt sess.document) 1024 with
      | (st, .ok t) => (st, .ok (.validation t))
      | (st, .error e) => (st, .error ⟨500, e.detail⟩)

/-- The `/extract_key_dates` prompt (mcp_tools.py lines 228-253).  The
endpoint reads the stored document into a local variable, but the
f-string never interpolates it, so the prompt is a constant. -/
def extract_dates_prompt : String :=
  "\nYou are a legal contract date extractor.\nAnalyze the following document and identify all important contractual dates:\n- Contract start date\n- Contract expiration\n- Renewal dates\n- Completion milestones\n- Warning or notice periods\n- Recurring obligations\n\nReturn JSON ONLY with this schema:\n\x7b\n  \"key_dates\": [\n    \x7b\n      \"event_name\": str,\n      \"recurrence\": str|null,\n      \"date_or_day\": str\n    \x7d\n  ]\n\x7d\n\nRules:\n- Include ALL important dates mentioned.\n- Do not hallucinate.\n- Respond ONLY in valid JSON.\n"

/-- `POST /extract_key_dates` (mcp_tools.py lines 216-258): like
`validate_document`, but with `max_tokens=2000`. -/
def extract_key_dates (backend : Backend) (store : Store) (session_id : String) :
    Store × Except HTTPError ToolResponse :=
  match lookupSession store session_id with
  | none => (store, .error ⟨500, notInitMsg session_id⟩)
  | some _sess =>
      match ask_claude backend store session_id extract_dates_prompt 2000 with
      | (st, .ok t) => (st, .ok (.key_dates t))
      | (st, .error e) => (st, .error ⟨500, e.detail⟩)

/-- `POST /reset_session/{session_id}` (mcp_tools.py lines 260-273):
deletes an existing session, or reports not-found. -/
def reset_session (store : Store) (session_id : String) : Store × String :=
  if (lookupSession store session_id).isSome then
    (delSession store session_id, "Session " ++ session_id ++ " cleared.")
  else
    (store, "Session " ++ session_id ++ " not found.")

/-- Boolean list-prefix test on characters. -/
def listPrefixB : List Char → List Char → Bool
  | [], _ => true
  | _ :: _, [] => false
  | a :: as, b :: bs => a == b && listPrefixB as bs

/-- Boolean substring test on character lists (needle, haystack). -/
def isSubstr (needle : List Char) : List Char → Bool
  | [] => needle.isEmpty
  | c :: rest => listPrefixB needle (c :: rest) || isSubstr needle rest

/-- Python's `w in q` substring containment on strings. -/
def strIn (w q : String) : Bool := isSubstr w.toList q.toList

/-- Python's `question.lower()`, modelled per character over the string's
character list (structural recursion, so the kernel can evaluate it on
concrete inputs). -/
def pyLower (s : String) : String := String.mk (s.data.map Char.toLower)

/-- The risk keyword group of `classify_intent` (chatbot.py line 66). -/
def riskWords : List String := ["risk", "problem", "contradiction", "issue", "ambiguity"]

/-- The plain-language keyword group (chatbot.py line 68). -/
def plainWords : List String := ["plain english", "simplify", "explain"]

/-- The contract-identification phrase group (chatbot.py line 70). -/
def contractWords : List String := ["is this a contract", "legal document"]

/-- The date keyword group (chatbot.py line 72). -/
def dateWords : List String := ["date", "deadline", "milestone", "expire", "renewal"]

/-- `any(word in q for word in ws)` over the lowercased input. -/
def anyKeyword (ws : List String) (question : String) : Bool :=
  ws.any (fun w => strIn w (pyLower question))

/-- `classify_intent(question)` (chatbot.py lines 61-75): the keyword
fallback classifier, evaluated on the lowercased input in a fixed
priority order. -/
def classify_intent (question : String) : String :=
  let q := pyLower question
  if riskWords.any (fun w => strIn w q) then "analyze_complications"
  else if plainWords.any (fun w => strIn w q) then "simplify"
  else if contractWords.any (fun w => strIn w q) then "validate_document"
  else if dateWords.any (fun w => strIn w q) then "extract_key_dates"
  else "qa"

/-- The five-element tool enum of the `choose_tool` input schema and of the
fallback check (chatbot.py lines 115 and 132). -/
def VALID_TOOLS : List String :=
  ["qa", "simplify", "analyze_complications", "validate_document", "extract_key_dates"]

/-- One content block of the chooser response: either a `tool_use` block
whose `input` is a dict, or any other block. -/
inductive ContentBlock where
  | toolUse (input : List (String × String))
  | other (text : String)
deriving DecidableEq

/-- The loop over `response.content` picking the first `tool_use` block's
`input` (chatbot.py lines 125-129). -/
def extractToolUse : List ContentBlock → Option (List (String × String))
  | [] => none
  | .toolUse input :: _ => some input
  | .other _ :: rest => extractToolUse rest

/-- Python dict `.get(k)` on the modelled `tool_use.input` dict. -/
def dictGet (d : List (String × String)) (k : String) : Option String :=
  match d with
  | [] => none
  | (k', v) :: rest => if k' = k then some v else dictGet rest k

/-- The fallback condition of chatbot.py line 132:
`not tool_use or tool_use.get("tool") not in VALID_TOOLS`
(an absent block, an empty — hence falsy — dict, or a label outside the enum). -/
def needsFallback (tu : Option (List (String × String))) : Bool :=
  match tu with
  | none => true
  | some d =>
      d.isEmpty ||
      !(match dictGet d "tool" with
        | some t => VALID_TOOLS.contains t
        | none => false)

/-- The routing prompt sent to the chooser model (chatbot.py lines 84-102). -/
def routing_prompt (user_query : String) : String :=
  "\nUser question: \"" ++ user_query ++
  "\"\n\nYou are a smart MCP assistant. Only choose **one tool** for this question.\nAvailable tools with usage examples:\n\n1. \"qa\": Answer specific questions about the document.\n   Example: \"Who is responsible for renewal notice?\"\n2. \"simplify\": Rewrite the document in plain language.\n   Example: \"Explain this contract in plain English\"\n3. \"analyze_complications\": Identify legal risks, ambiguities, contradictions.\n   Example: \"Find risky clauses in the contract\"\n4. \"validate_document\": Check if the document is a legal contract.\n   Example: \"Is this document a legal contract?\"\n5. \"extract_key_dates\": Extract all important dates and milestones.\n   Example: \"List all important contract dates\"\n\nRespond STRICTLY in JSON: \x7b\"tool\": \"...\", \"reason\": \"...\"\x7d\n"

/-- The chooser oracle: `client.messages.create` with the `choose_tool`
schema, taking the routing prompt to either an exception message or the
response's content blocks. -/
abbrev Chooser := String → Except String (List ContentBlock)

/-- The dispatch oracle: `call_mcp_tool(endpoint, payload)[field]` for one
tool, taking the tool name and the user query to either an exception
message (a network `RuntimeError` or a missing-field `KeyError`) or the
extracted response-field text. -/
abbrev CallTool := String → String → Except String String

/-- The endpoint-dispatch chain of chatbot.py lines 140-152: the five
`elif` branches call the matching endpoint; an unrecognized tool name
returns the `"Unrecognized tool: ..."` string without calling anything. -/
def dispatchTool (call_tool : CallTool) (tool user_query : String) : Except String String :=
  if tool = "qa" then call_tool "qa" user_query
  else if tool = "simplify" then call_tool "simplify" user_query
  else if tool = "analyze_complications" then call_tool "analyze_complications" user_query
  else if tool = "validate_document" then call_tool "validate_document" user_query
  else if tool = "extract_key_dates" then call_tool "extract_key_dates" user_query
  else .ok ("Unrecognized tool: " ++ tool)

/-- `chat_with_bot(user_query)` (chatbot.py lines 77-156): asks the chooser
model for a tool; if the response has no `tool_use` block or an invalid
label, substitutes the fallback classifier's tool; dispatches to the
chosen endpoint.  Any exception raised anywhere in the body — including
one from the chooser call itself — is caught by the outer `except` and
turned into the `"Error in chat_with_bot: ..."` string. -/
def chat_with_bot (chooser : Chooser) (call_tool : CallTool) (user_query : String) : String :=
  match chooser (routing_prompt user_query) with
  | .error e => "Error in chat_with_bot: " ++ e
  | .ok content =>
      let tu := extractToolUse content
      let tool :=
        if needsFallback tu then classify_intent user_query
        else (dictGet (tu.getD []) "tool").getD ""
      match dispatchTool call_tool tool user_query with
      | .ok r => r
      | .error e => "Error in chat_with_bot: " ++ e

/-- The observable outcome of dispatching one tool from `chat_with_bot`:
the extracted field on success, the outer `except` string on failure. -/
def runDispatch (call_tool : CallTool) (tool user_query : String) : String :=
  match dispatchTool call_tool tool user_query with
  | .ok r => r
  | .error e => "Error in chat_with_bot: " ++ e

/-- The document field of the session stored under a key, if any. -/
def docOf (st : Store) (id : String) : Option String :=
  (lookupSession st id).map (fun s => s.document)

theorem lookup_set_self (st : Store) (k : String) (v : Session) :
    lookupSession (setSession st k v) k = some v := by
  induction st with
  | nil => simp [setSession, lookupSession]
  | cons p rest ih =>
    obtain ⟨a, b⟩ := p
    by_cases h : a = k
    · subst h; simp [setSession, lookupSession]
    · simp [setSession, lookupSession, h, ih]

theorem lookup_set_other (st : Store) (k k' : String) (v : Session) (h : k' ≠ k) :
    lookupSession (setSession st k v) k' = lookupSession st k' := by
  induction st with
  | nil => simp [setSession, lookupSession, Ne.symm h]
  | cons p rest ih =>
    obtain ⟨a, b⟩ := p
    by_cases ha : a = k
    · subst ha
      simp [setSession, lookupSession, Ne.symm h]
    · simp [setSession, lookupSession, ha, ih]

theorem lookup_none_of_not_mem (st : Store) (k : String)
    (h : k ∉ st.map Prod.fst) : lookupSession st k = none := by
  induction st with
  | nil => rfl
  | cons p rest ih =>
    obtain ⟨a, b⟩ := p
    simp only [List.map_cons, List.mem_cons] at h
    push_neg at h
    simp [lookupSession, Ne.symm h.1, ih h.2]

theorem lookup_del_self (st : Store) (k : String) (hwf : storeWF st) :
    lookupSession (delSession st k) k = none := by
  induction st with
  | nil => rfl
  | cons p rest ih =>
    obtain ⟨a, b⟩ := p
    simp only [storeWF, List.map_cons, List.nodup_cons] at hwf
    by_cases ha : a = k
    · subst ha
      simpa [delSession] using lookup_none_of_not_mem rest a hwf.1
    · simp [delSession, lookupSession, ha, ih hwf.2]

theorem lookup_del_other (st : Store) (k k' : String) (h : k' ≠ k) :
    lookupSession (delSession st k) k' = lookupSession st k' := by
  induction st with
  | nil => rfl
  | cons p rest ih =>
    obtain ⟨a, b⟩ := p
    by_cases ha : a = k
    · subst ha
      simp [delSession, lookupSession, Ne.symm h]
    · simp [delSession, lookupSession, ha, ih]

theorem ask_claude_not_init (backend : Backend) (st : Store) (sid p : String) (n : Nat)
    (h : lookupSession st sid = none) :
    ask_claude backend st sid p n = (st, .error ⟨500, notInitMsg sid⟩) := by
  unfold ask_claude
  rw [h]

theorem ask_claude_ok (backend : Backend) (st : Store) (sid p : String) (n : Nat)
    (sess : Session) (raw : String)
    (hs : lookupSession st sid = some sess)
    (hb : backend (sess.messages ++ [⟨"user", p⟩]) n = .ok raw) :
    ask_claude backend st sid p n =
      (setSession st sid
        ⟨sess.document, sess.messages ++ [⟨"user", p⟩, ⟨"assistant", raw.trim⟩]⟩,
       .ok raw.trim) := by
  unfold ask_claude
  rw [hs]
  simp [hb]

theorem ask_claude_err (backend : Backend) (st : Store) (sid p : String) (n : Nat)
    (sess : Session) (e : String)
    (hs : lookupSession st sid = some sess)
    (hb : backend (sess.messages ++ [⟨"user", p⟩]) n = .error e) :
    ask_claude backend st sid p n =
      (setSession st sid ⟨sess.document, sess.messages ++ [⟨"user", p⟩]⟩,
       .error ⟨500, e⟩) := by
  unfold ask_claude
  rw [hs]
  simp [hb]

theorem tools_not_init (backend : Backend) (st : Store) (q sid : String)
    (h : lookupSession st sid = none) :
    answer_question backend st q sid = (st, .error ⟨500, notInitMsg sid⟩) ∧
    simplify_document backend st sid = (st, .error ⟨500, notInitMsg sid⟩) ∧
    analyze_complications backend st sid = (st, .error ⟨500, notInitMsg sid⟩) ∧
    validate_document backend st sid = (st, .error ⟨500, notInitMsg sid⟩) ∧
    extract_key_dates backend st sid = (st, .error ⟨500, notInitMsg sid⟩) := by
  refine ⟨?_, ?_, ?_, ?_, ?_⟩
  · unfold answer_question
    rw [ask_claude_not_init backend st sid (qa_prompt q) 1024 h]
  · unfold simplify_document
    rw [ask_claude_not_init backend st sid simplify_prompt 1024 h]
  · unfold analyze_complications
    rw [h]
  · unfold validate_document
    rw [h]
  · unfold extract_key_dates
    rw [h]

theorem answer_question_ok (backend : Backend) (st : Store) (q sid : String)
    (sess : Session) (raw : String)
    (hs : lookupSession st sid = some sess)
    (hb : backend (sess.messages ++ [⟨"user", qa_prompt q⟩]) 1024 = .ok raw) :
    answer_question backend st q sid =
      (setSession st sid
        ⟨sess.document,
         sess.messages ++ [⟨"user", qa_prompt q⟩, ⟨"assistant", raw.trim⟩]⟩,
       .ok (.answer raw.trim)) := by
  unfold answer_question
  rw [ask_claude_ok backend st sid (qa_prompt q) 1024 sess raw hs hb]

theorem simplify_document_ok (backend : Backend) (st : Store) (sid : String)
    (sess : Session) (raw : String)
    (hs : lookupSession st sid = some sess)
    (hb : backend (sess.messages ++ [⟨"user", simplify_prompt⟩]) 1024 = .ok raw) :
    simplify_document backend st sid =
      (setSession st sid
        ⟨sess.document,
         sess.messages ++ [⟨"user", simplify_prompt⟩, ⟨"assistant", raw.trim⟩]⟩,
       .ok (.simplified_document raw.trim)) := by
  unfold simplify_document
  rw [ask_claude_ok backend st sid simplify_prompt 1024 sess raw hs hb]

theorem validate_document_ok (backend : Backend) (st : Store) (sid : String)
    (sess : Session) (raw : String)
    (hs : lookupSession st sid = some sess)
    (hb : backend (sess.messages ++ [⟨"user", validate_prompt sess.document⟩]) 1024 = .ok raw) :
    validate_document backend st sid =
      (setSession st sid
        ⟨sess.document,
         sess.messages ++ [⟨"user", validate_prompt sess.document⟩,
                           ⟨"assistant", raw.trim⟩]⟩,
       .ok (.validation raw.trim)) := by
  unfold validate_document
  rw [hs]
  simp [ask_claude_ok backend st sid (validate_prompt sess.document) 1024 sess raw hs hb]

theorem extract_key_dates_ok (backend : Backend) (st : Store) (sid : String)
    (sess : Session) (raw : String)
    (hs : lookupSession st sid = some sess)
    (hb : backend (sess.messages ++ [⟨"user", extract_dates_prompt⟩]) 2000 = .ok raw) :
    extract_key_dates backend st sid =
      (setSession st sid
        ⟨sess.document,
         sess.messages ++ [⟨"user", extract_dates_prompt⟩, ⟨"assistant", raw.trim⟩]⟩,
       .ok (.key_dates raw.trim)) := by
  unfold extract_key_dates
  rw [hs]
  simp [ask_claude_ok backend st sid extract_dates_prompt 2000 sess raw hs hb]

theorem analyze_complications_ok (backend : Backend) (st : Store) (sid : String)
    (sess : Session) (raw : String)
    (hs : lookupSession st sid = some sess)
    (hb : backend [⟨"user", analyze_prompt sess.document⟩] 2000 = .ok raw) :
    analyze_complications backend st sid = (st, .ok (.analysis raw.trim)) := by
  unfold analyze_complications
  rw [hs]
  simp [hb]

theorem analyze_complications_store (backend : Backend) (st : Store) (sid : String) :
    (analyze_complications backend st sid).1 = st := by
  unfold analyze_complications
  cases h : lookupSession st sid with
  | none => rfl
  | some sess =>
    cases hb : backend [⟨"user", analyze_prompt sess.document⟩] 2000 with
    | error e => simp [hb]
    | ok raw => simp [hb]

theorem ask_claude_store (backend : Backend) (st : Store) (sid p : String) (n : Nat) :
    (ask_claude backend st sid p n).1 = st ∨
    ∃ sess msgs, lookupSession st sid = some sess ∧
      (ask_claude backend st sid p n).1 = setSession st sid ⟨sess.document, msgs⟩ := by
  unfold ask_claude
  cases h : lookupSession st sid with
  | none => left; rfl
  | some sess =>
    cases hb : backend (sess.messages ++ [⟨"user", p⟩]) n with
    | error e =>
      right
      exact ⟨sess, sess.messages ++ [⟨"user", p⟩], rfl, by simp [hb]⟩
    | ok raw =>
      right
      refine ⟨sess, sess.messages ++ [⟨"user", p⟩] ++ [⟨"assistant", raw.trim⟩], rfl, ?_⟩
      simp [hb]

theorem answer_question_store (backend : Backend) (st : Store) (q sid : String) :
    (answer_question backend st q sid).1 = (ask_claude backend st sid (qa_prompt q) 1024).1 := by
  unfold answer_question
  rcases h : ask_claude backend st sid (qa_prompt q) 1024 with ⟨st', r⟩
  cases r <;> simp

theorem simplify_document_store (backend : Backend) (st : Store) (sid : String) :
    (simplify_document backend st sid).1 = (ask_claude backend st sid simplify_prompt 1024).1 := by
  unfold simplify_document
  rcases h : ask_claude backend st sid simplify_prompt 1024 with ⟨st', r⟩
  cases r <;> simp

theorem validate_document_store (backend : Backend) (st : Store) (sid : String) :
    (validate_document backend st sid).1 = st ∨
    ∃ sess, lookupSession st sid = some sess ∧
      (validate_document backend st sid).1 =
        (ask_claude backend st sid (validate_prompt sess.document) 1024).1 := by
  unfold validate_document
  cases h : lookupSession st sid with
  | none => left; rfl
  | some sess =>
    right
    refine ⟨sess, rfl, ?_⟩
    rcases hc : ask_claude backend st sid (validate_prompt sess.document) 1024 with ⟨st', r⟩
    cases r <;> simp [hc]

theorem extract_key_dates_store (backend : Backend) (st : Store) (sid : String) :
    (extract_key_dates backend st sid).1 = st ∨
    ∃ sess, lookupSession st sid = some sess ∧
      (extract_key_dates backend st sid).1 =
        (ask_claude backend st sid extract_dates_prompt 2000).1 := by
  unfold extract_key_dates
  cases h : lookupSession st sid with
  | none => left; rfl
  | some sess =>
    right
    refine ⟨sess, rfl, ?_⟩
    rcases hc : ask_claude backend st sid extract_dates_prompt 2000 with ⟨st', r⟩
    cases r <;> simp [hc]

/-- C2: for every input, `classify_intent` returns "analyze_complications"
when the lowercased input contains a risk keyword; otherwise "simplify"
on a plain-language keyword; otherwise "validate_document" on a
contract-identification phrase; otherwise "extract_key_dates" on a date
keyword; otherwise "qa" — first matching group wins. -/
theorem classify_intent_priority (s : String) :
    (anyKeyword riskWords s = true → classify_intent s = "analyze_complications") ∧
    (anyKeyword riskWords s = false → anyKeyword plainWords s = true →
      classify_intent s = "simplify") ∧
    (anyKeyword riskWords s = false → anyKeyword plainWords s = false →
      anyKeyword contractWords s = true → classify_intent s = "validate_document") ∧
    (anyKeyword riskWords s = false → anyKeyword plainWords s = false →
      anyKeyword contractWords s = false → anyKeyword dateWords s = true →
      classify_intent s = "extract_key_dates") ∧
    (anyKeyword riskWords s = false → anyKeyword plainWords s = false →
      anyKeyword contractWords s = false → anyKeyword dateWords s = false →
      classify_intent s = "qa") := by
  simp only [anyKeyword, classify_intent]
  refine ⟨fun h1 => ?_, fun h1 h2 => ?_, fun h1 h2 h3 => ?_, fun h1 h2 h3 h4 => ?_,
          fun h1 h2 h3 h4 => ?_⟩
  · simp [h1]
  · simp [h1, h2]
  · simp [h1, h2, h3]
  · simp [h1, h2, h3, h4]
  · simp [h1, h2, h3, h4]

/-- C2 witness: an input matching both a risk keyword and a date keyword
is classified as "analyze_complications". -/
theorem classify_intent_priority_witness :
    anyKeyword riskWords "any risk before the deadline" = true ∧
    anyKeyword dateWords "any risk before the deadline" = true ∧
    classify_intent "any risk before the deadline" = "analyze_complications" :=
  ⟨by decide, by decide,
   (classify_intent_priority "any risk before the deadline").1 (by decide)⟩

/-- C5: `init_session` always succeeds, returning the confirmation
message, and stores fresh state keyed by the id: afterwards the id maps
to exactly the new document together with the single seed history entry,
whatever was stored before (create or complete overwrite). -/
theorem init_session_creates_or_overwrites (store : Store) (sid doc : String) :
    lookupSession (init_session store sid doc).1 sid =
      some ⟨doc, [⟨"user", init_prompt doc⟩]⟩ ∧
    (init_session store sid doc).2 =
      "Session " ++ sid ++ " initialized with document." :=
  ⟨lookup_set_self store sid _, rfl⟩

/-- C3: with a session id absent from the store, each of the five tool
endpoints returns an HTTP 500 error whose text is the "not initialized"
value-error message, and no tool result. -/
theorem tools_fail_uninitialized (backend : Backend) (store : Store) (q sid : String)
    (h : lookupSession store sid = none) :
    (answer_question backend store q sid).2 = .error ⟨500, notInitMsg sid⟩ ∧
    (simplify_document backend store sid).2 = .error ⟨500, notInitMsg sid⟩ ∧
    (analyze_complications backend store sid).2 = .error ⟨500, notInitMsg sid⟩ ∧
    (validate_document backend store sid).2 = .error ⟨500, notInitMsg sid⟩ ∧
    (extract_key_dates backend store sid).2 = .error ⟨500, notInitMsg sid⟩ := by
  obtain ⟨h1, h2, h3, h4, h5⟩ := tools_not_init backend store q sid h
  exact ⟨by rw [h1], by rw [h2], by rw [h3], by rw [h4], by rw [h5]⟩

/-- C3 witness: on the empty store, the qa endpoint fails with the 500
"not initialized" error. -/
theorem tools_fail_uninitialized_witness :
    (answer_question (fun _ _ => Except.ok "r") ([] : Store) "q" "s").2 =
      .error ⟨500, notInitMsg "s"⟩ :=
  (tools_fail_uninitialized (fun _ _ => Except.ok "r") ([] : Store) "q" "s" rfl).1

/-- C10: a tool call with a session id absent from the store leaves the
whole store unchanged: no entry is created for that id and no existing
session is modified. -/
theorem uninit_call_leaves_store_unchanged (backend : Backend) (store : Store) (q sid : String)
    (h : lookupSession store sid = none) :
    (answer_question backend store q sid).1 = store ∧
    (simplify_document backend store sid).1 = store ∧
    (analyze_complications backend store sid).1 = store ∧
    (validate_document backend store sid).1 = store ∧
    (extract_key_dates backend store sid).1 = store := by
  obtain ⟨h1, h2, h3, h4, h5⟩ := tools_not_init backend store q sid h
  exact ⟨by rw [h1], by rw [h2], by rw [h3], by rw [h4], by rw [h5]⟩

/-- C10 witness: a qa call on a one-session store with an unknown id
leaves that store intact. -/
theorem uninit_call_leaves_store_unchanged_witness :
    (answer_question (fun _ _ => Except.ok "r")
        (init_session ([] : Store) "s" "doc").1 "q" "t").1 =
      (init_session ([] : Store) "s" "doc").1 :=
  (uninit_call_leaves_store_unchanged (fun _ _ => Except.ok "r")
      (init_session ([] : Store) "s" "doc").1 "q" "t" (by decide)).1

/-- C9: when the backend call inside `ask_claude` fails after the
session check passed, the already-appended user prompt stays: the call
errors with the backend's message and the session's history has grown by
exactly one user entry. -/
theorem ask_claude_partial_append_on_failure (backend : Backend) (store : Store)
    (sid p : String) (n : Nat) (sess : Session) (e : String)
    (hs : lookupSession store sid = some sess)
    (hb : backend (sess.messages ++ [⟨"user", p⟩]) n = .error e) :
    (ask_claude backend store sid p n).2 = .error ⟨500, e⟩ ∧
    lookupSession (ask_claude backend store sid p n).1 sid =
      some ⟨sess.document, sess.messages ++ [⟨"user", p⟩]⟩ ∧
    (lookupSession (ask_claude backend store sid p n).1 sid).map
      (fun s => s.messages.length) = some (sess.messages.length + 1) := by
  rw [ask_claude_err backend store sid p n sess e hs hb]
  refine ⟨rfl, lookup_set_self store sid _, ?_⟩
  rw [lookup_set_self store sid _]
  simp

/-- C9 witness: a failing backend on a freshly initialized session leaves
a history of length two (seed entry plus the orphaned user prompt). -/
theorem ask_claude_partial_append_on_failure_witness :
    (ask_claude (fun _ _ => Except.error "boom")
        (init_session ([] : Store) "s" "doc").1 "s" "p" 7).2 =
      .error ⟨500, "boom"⟩ ∧
    (lookupSession (ask_claude (fun _ _ => Except.error "boom")
        (init_session ([] : Store) "s" "doc").1 "s" "p" 7).1 "s").map
      (fun s => s.messages.length) = some 2 :=
  ⟨(ask_claude_partial_append_on_failure (fun _ _ => Except.error "boom")
      (init_session ([] : Store) "s" "doc").1 "s" "p" 7
      ⟨"doc", [⟨"user", init_prompt "doc"⟩]⟩ "boom" (by decide) rfl).1,
   (ask_claude_partial_append_on_failure (fun _ _ => Except.error "boom")
      (init_session ([] : Store) "s" "doc").1 "s" "p" 7
      ⟨"doc", [⟨"user", init_prompt "doc"⟩]⟩ "boom" (by decide) rfl).2.2⟩

/-- C1 counterexample: on a freshly initialized session, a successful
`analyze_complications` call leaves the session's message history at its
previous length (one entry), so the history does not grow by two on
every successful tool call. -/
theorem analyze_complications_no_growth_cex :
    exceptIsOk (analyze_complications (fun _ _ => Except.ok "out")
        (init_session ([] : Store) "s" "doc").1 "s").2 = true ∧
    (lookupSession (analyze_complications (fun _ _ => Except.ok "out")
        (init_session ([] : Store) "s" "doc").1 "s").1 "s").map
      (fun sess => sess.messages.length) = some 1 ∧
    (lookupSession (init_session ([] : Store) "s" "doc").1 "s").map
      (fun sess => sess.messages.length) = some 1 := by
  refine ⟨?_, ?_, by decide⟩
  · rw [analyze_complications_ok (fun _ _ => Except.ok "out")
        (init_session ([] : Store) "s" "doc").1 "s"
        ⟨"doc", [⟨"user", init_prompt "doc"⟩]⟩ "out" (by decide) rfl]
    rfl
  · rw [analyze_complications_store]
    decide

/-- C1 amended: a successful qa, simplify, validate_document or
extract_key_dates call grows the session's history by exactly two
entries — first the user entry holding the built prompt, then the
assistant entry holding the (stripped) model reply — and changes nothing
else of the session; a successful analyze_complications call leaves the
whole store, hence the history, unchanged. -/
theorem history_growth_amended (backend : Backend) (store : Store) (q sid : String)
    (sess : Session)
    (hs : lookupSession store sid = some sess)
    (hb : ∀ msgs n, ∃ raw, backend msgs n = Except.ok raw) :
    (∃ t, lookupSession (answer_question backend store q sid).1 sid =
        some ⟨sess.document,
          sess.messages ++ [⟨"user", qa_prompt q⟩, ⟨"assistant", t⟩]⟩ ∧
      (answer_question backend store q sid).2 = .ok (.answer t)) ∧
    (∃ t, lookupSession (simplify_document backend store sid).1 sid =
        some ⟨sess.document,
          sess.messages ++ [⟨"user", simplify_prompt⟩, ⟨"assistant", t⟩]⟩ ∧
      (simplify_document backend store sid).2 = .ok (.simplified_document t)) ∧
    (∃ t, lookupSession (validate_document backend store sid).1 sid =
        some ⟨sess.document,
          sess.messages ++ [⟨"user", validate_prompt sess.document⟩, ⟨"assistant", t⟩]⟩ ∧
      (validate_document backend store sid).2 = .ok (.validation t)) ∧
    (∃ t, lookupSession (extract_key_dates backend store sid).1 sid =
        some ⟨sess.document,
          sess.messages ++ [⟨"user", extract_dates_prompt⟩, ⟨"assistant", t⟩]⟩ ∧
      (extract_key_dates backend store sid).2 = .ok (.key_dates t)) ∧
    ((analyze_complications backend store sid).1 = store ∧
      exceptIsOk (analyze_complications backend store sid).2 = true) := by
  refine ⟨?_, ?_, ?_, ?_, ?_, ?_⟩
  · obtain ⟨raw, hok⟩ := hb (sess.messages ++ [⟨"user", qa_prompt q⟩]) 1024
    refine ⟨raw.trim, ?_, ?_⟩ <;>
      rw [answer_question_ok backend store q sid sess raw hs hok]
    · exact lookup_set_self store sid _
  · obtain ⟨raw, hok⟩ := hb (sess.messages ++ [⟨"user", simplify_prompt⟩]) 1024
    refine ⟨raw.trim, ?_, ?_⟩ <;>
      rw [simplify_document_ok backend store sid sess raw hs hok]
    · exact lookup_set_self store sid _
  · obtain ⟨raw, hok⟩ := hb (sess.messages ++ [⟨"user", validate_prompt sess.document⟩]) 1024
    refine ⟨raw.trim, ?_, ?_⟩ <;>
      rw [validate_document_ok backend store sid sess raw hs hok]
    · exact lookup_set_self store sid _
  · obtain ⟨raw, hok⟩ := hb (sess.messages ++ [⟨"user", extract_dates_prompt⟩]) 2000
    refine ⟨raw.trim, ?_, ?_⟩ <;>
      rw [extract_key_dates_ok backend store sid sess raw hs hok]
    · exact lookup_set_self store sid _
  · exact analyze_complications_store backend store sid
  · obtain ⟨raw, hok⟩ := hb [⟨"user", analyze_prompt sess.document⟩] 2000
    rw [analyze_complications_ok backend store sid sess raw hs hok]
    rfl

/-- C1 amended witness: on a freshly initialized session with an
always-succeeding backend, the qa endpoint leaves a history of "user"
seed, "user" qa prompt, "assistant" reply. -/
theorem history_growth_amended_witness :
    ∃ t, lookupSession (answer_question (fun _ _ => Except.ok "reply")
        (init_session ([] : Store) "s" "doc").1 "q" "s").1 "s" =
      some ⟨"doc", [⟨"user", init_prompt "doc"⟩] ++
        [⟨"user", qa_prompt "q"⟩, ⟨"assistant", t⟩]⟩ ∧
      (answer_question (fun _ _ => Except.ok "reply")
        (init_session ([] : Store) "s" "doc").1 "q" "s").2 = .ok (.answer t) :=
  (history_growth_amended (fun _ _ => Except.ok "reply")
      (init_session ([] : Store) "s" "doc").1 "q" "s"
      ⟨"doc", [⟨"user", init_prompt "doc"⟩]⟩ (by decide)
      (fun _ _ => ⟨"reply", rfl⟩)).1

/-- C6: resetting an id present in the store removes it — afterwards the
id no longer resolves and every tool call on it fails as uninitialized —
and returns the "cleared" message; resetting an absent id leaves the
store unchanged and reports not-found. -/
theorem reset_session_spec (backend : Backend) (store : Store) (sid q : String)
    (hwf : storeWF store) :
    ((lookupSession store sid).isSome = true →
      lookupSession (reset_session store sid).1 sid = none ∧
      (reset_session store sid).2 = "Session " ++ sid ++ " cleared." ∧
      (answer_question backend (reset_session store sid).1 q sid).2 =
        .error ⟨500, notInitMsg sid⟩ ∧
      (simplify_document backend (reset_session store sid).1 sid).2 =
        .error ⟨500, notInitMsg sid⟩ ∧
      (analyze_complications backend (reset_session store sid).1 sid).2 =
        .error ⟨500, notInitMsg sid⟩ ∧
      (validate_document backend (reset_session store sid).1 sid).2 =
        .error ⟨500, notInitMsg sid⟩ ∧
      (extract_key_dates backend (reset_session store sid).1 sid).2 =
        .error ⟨500, notInitMsg sid⟩) ∧
    ((lookupSession store sid).isSome = false →
      (reset_session store sid).1 = store ∧
      (reset_session store sid).2 = "Session " ++ sid ++ " not found.") := by
  constructor
  · intro hin
    have h1 : (reset_session store sid).1 = delSession store sid := by
      simp [reset_session, hin]
    have h2 : (reset_session store sid).2 = "Session " ++ sid ++ " cleared." := by
      simp [reset_session, hin]
    have hnone : lookupSession (reset_session store sid).1 sid = none := by
      rw [h1]; exact lookup_del_self store sid hwf
    obtain ⟨t1, t2, t3, t4, t5⟩ :=
      tools_not_init backend (reset_session store sid).1 q sid hnone
    exact ⟨hnone, h2, by rw [t1], by rw [t2], by rw [t3], by rw [t4], by rw [t5]⟩
  · intro hout
    constructor <;> simp [reset_session, hout]

/-- C6 witness: on a one-session store, reset removes the session and a
subsequent qa call on it fails with the 500 "not initialized" error. -/
theorem reset_session_spec_witness :
    lookupSession (reset_session (init_session ([] : Store) "s" "doc").1 "s").1 "s" =
      none ∧
    (answer_question (fun _ _ => Except.ok "r")
        (reset_session (init_session ([] : Store) "s" "doc").1 "s").1 "q" "s").2 =
      .error ⟨500, notInitMsg "s"⟩ :=
  ⟨((reset_session_spec (fun _ _ => Except.ok "r")
        (init_session ([] : Store) "s" "doc").1 "s" "q" (by decide)).1 (by decide)).1,
   ((reset_session_spec (fun _ _ => Except.ok "r")
        (init_session ([] : Store) "s" "doc").1 "s" "q" (by decide)).1 (by decide)).2.2.1⟩

/-- C7: after `init_session` with id `sid`, every tool call on `sid`
passes the initialization check and succeeds (given a backend that
returns a reply), yielding the endpoint's response field; the same calls
on an id absent from the store fail. -/
theorem init_then_tools_succeed (backend : Backend) (store : Store)
    (sid doc q sid' : String)
    (hb : ∀ msgs n, ∃ raw, backend msgs n = Except.ok raw)
    (h' : lookupSession store sid' = none) :
    (∃ t, (answer_question backend (init_session store sid doc).1 q sid).2 =
        .ok (.answer t)) ∧
    (∃ t, (simplify_document backend (init_session store sid doc).1 sid).2 =
        .ok (.simplified_document t)) ∧
    (∃ t, (analyze_complications backend (init_session store sid doc).1 sid).2 =
        .ok (.analysis t)) ∧
    (∃ t, (validate_document backend (init_session store sid doc).1 sid).2 =
        .ok (.validation t)) ∧
    (∃ t, (extract_key_dates backend (init_session store sid doc).1 sid).2 =
        .ok (.key_dates t)) ∧
    ((answer_question backend store q sid').2 = .error ⟨500, notInitMsg sid'⟩ ∧
     (simplify_document backend store sid').2 = .error ⟨500, notInitMsg sid'⟩ ∧
     (analyze_complications backend store sid').2 = .error ⟨500, notInitMsg sid'⟩ ∧
     (validate_document backend store sid').2 = .error ⟨500, notInitMsg sid'⟩ ∧
     (extract_key_dates backend store sid').2 = .error ⟨500, notInitMsg sid'⟩) := by
  have hs : lookupSession (init_session store sid doc).1 sid =
      some ⟨doc, [⟨"user", init_prompt doc⟩]⟩ := lookup_set_self store sid _
  obtain ⟨g1, g2, g3, g4, g5, _⟩ :=
    history_growth_amended backend (init_session store sid doc).1 q sid
      ⟨doc, [⟨"user", init_prompt doc⟩]⟩ hs hb
  obtain ⟨t1, ht1⟩ := g1
  obtain ⟨t2, ht2⟩ := g2
  obtain ⟨t3, ht3⟩ := g3
  obtain ⟨t4, ht4⟩ := g4
  obtain ⟨raw, hok⟩ := hb [⟨"user", analyze_prompt doc⟩] 2000
  obtain ⟨f1, f2, f3, f4, f5⟩ := tools_not_init backend store q sid' h'
  refine ⟨⟨t1, ht1.2⟩, ⟨t2, ht2.2⟩, ⟨raw.trim, ?_⟩, ⟨t3, ht3.2⟩, ⟨t4, ht4.2⟩,
      by rw [f1], by rw [f2], by rw [f3], by rw [f4], by rw [f5]⟩
  rw [analyze_complications_ok backend (init_session store sid doc).1 sid
      ⟨doc, [⟨"user", init_prompt doc⟩]⟩ raw hs hok]

/-- C7 witness: with an always-succeeding backend, qa on a freshly
initialized id succeeds, and qa on the empty store fails. -/
theorem init_then_tools_succeed_witness :
    (∃ t, (answer_question (fun _ _ => Except.ok "reply")
        (init_session ([] : Store) "s" "doc").1 "q" "s").2 =
      .ok (.answer t)) ∧
    (answer_question (fun _ _ => Except.ok "reply") ([] : Store) "q" "t").2 =
      .error ⟨500, notInitMsg "t"⟩ :=
  ⟨(init_then_tools_succeed (fun _ _ => Except.ok "reply") ([] : Store)
      "s" "doc" "q" "t" (fun _ _ => ⟨"reply", rfl⟩) rfl).1,
   (init_then_tools_succeed (fun _ _ => Except.ok "reply") ([] : Store)
      "s" "doc" "q" "t" (fun _ _ => ⟨"reply", rfl⟩) rfl).2.2.2.2.2.1⟩

theorem ask_claude_frame (backend : Backend) (store : Store) (sid p : String) (n : Nat)
    (k : String) :
    docOf (ask_claude backend store sid p n).1 k = docOf store k ∧
    (k ≠ sid → lookupSession (ask_claude backend store sid p n).1 k =
      lookupSession store k) := by
  rcases ask_claude_store backend store sid p n with h | ⟨sess, msgs, hsess, h⟩
  · rw [h]; exact ⟨rfl, fun _ => rfl⟩
  · constructor
    · by_cases hk : k = sid
      · subst hk
        unfold docOf
        rw [h, lookup_set_self, hsess]
        rfl
      · unfold docOf
        rw [h, lookup_set_other store sid k _ hk]
    · intro hk
      rw [h, lookup_set_other store sid k _ hk]

/-- C8: no tool call changes the document field of any session (its own
included), and every session under a different id is left entirely
unchanged; of the embedded operations only `init_session` and
`reset_session` can change what a key's document resolves to. -/
theorem tools_preserve_documents (backend : Backend) (store : Store) (q sid k : String) :
    (docOf (answer_question backend store q sid).1 k = docOf store k ∧
     docOf (simplify_document backend store sid).1 k = docOf store k ∧
     docOf (analyze_complications backend store sid).1 k = docOf store k ∧
     docOf (validate_document backend store sid).1 k = docOf store k ∧
     docOf (extract_key_dates backend store sid).1 k = docOf store k) ∧
    (k ≠ sid →
     lookupSession (answer_question backend store q sid).1 k = lookupSession store k ∧
     lookupSession (simplify_document backend store sid).1 k = lookupSession store k ∧
     lookupSession (analyze_complications backend store sid).1 k = lookupSession store k ∧
     lookupSession (validate_document backend store sid).1 k = lookupSession store k ∧
     lookupSession (extract_key_dates backend store sid).1 k = lookupSession store k) := by
  have hqa := ask_claude_frame backend store sid (qa_prompt q) 1024 k
  have hsi := ask_claude_frame backend store sid simplify_prompt 1024 k
  have han := analyze_complications_store backend store sid
  have hva : docOf (validate_document backend store sid).1 k = docOf store k ∧
      (k ≠ sid → lookupSession (validate_document backend store sid).1 k =
        lookupSession store k) := by
    rcases validate_document_store backend store sid with h | ⟨sess, hsess, h⟩
    · rw [h]; exact ⟨rfl, fun _ => rfl⟩
    · rw [h]
      exact ask_claude_frame backend store sid (validate_prompt sess.document) 1024 k
  have hex : docOf (extract_key_dates backend store sid).1 k = docOf store k ∧
      (k ≠ sid → lookupSession (extract_key_dates backend store sid).1 k =
        lookupSession store k) := by
    rcases extract_key_dates_store backend store sid with h | ⟨sess, hsess, h⟩
    · rw [h]; exact ⟨rfl, fun _ => rfl⟩
    · rw [h]
      exact ask_claude_frame backend store sid extract_dates_prompt 2000 k
  refine ⟨⟨?_, ?_, by rw [han], hva.1, hex.1⟩,
          fun hk => ⟨?_, ?_, by rw [han], hva.2 hk, hex.2 hk⟩⟩
  · rw [answer_question_store]; exact hqa.1
  · rw [simplify_document_store]; exact hsi.1
  · rw [answer_question_store]; exact hqa.2 hk
  · rw [simplify_document_store]; exact hsi.2 hk

/-- C8 witness: on a two-session store, a qa call on "s" leaves the
document of "s" and the whole session "t" as they were. -/
theorem tools_preserve_documents_witness :
    docOf (answer_question (fun _ _ => Except.ok "reply")
        (init_session (init_session ([] : Store) "t" "other").1 "s" "doc").1 "q" "s").1 "s" =
      docOf (init_session (init_session ([] : Store) "t" "other").1 "s" "doc").1 "s" ∧
    lookupSession (answer_question (fun _ _ => Except.ok "reply")
        (init_session (init_session ([] : Store) "t" "other").1 "s" "doc").1 "q" "s").1 "t" =
      lookupSession (init_session (init_session ([] : Store) "t" "other").1 "s" "doc").1 "t" :=
  ⟨(tools_preserve_documents (fun _ _ => Except.ok "reply")
      (init_session (init_session ([] : Store) "t" "other").1 "s" "doc").1 "q" "s" "s").1.1,
   ((tools_preserve_documents (fun _ _ => Except.ok "reply")
      (init_session (init_session ([] : Store) "t" "other").1 "s" "doc").1 "q" "s" "t").2
      (by decide)).1⟩

theorem needsFallback_false_iff (tu : Option (List (String × String))) :
    needsFallback tu = false ↔
    ∃ d t, tu = some d ∧ d.isEmpty = false ∧ dictGet d "tool" = some t ∧
      VALID_TOOLS.contains t = true := by
  cases tu with
  | none => simp [needsFallback]
  | some d =>
    cases hd : dictGet d "tool" with
    | none => simp [needsFallback, hd]
    | some t =>
      constructor
      · intro h
        simp only [needsFallback, hd, Bool.or_eq_false_iff, Bool.not_eq_false'] at h
        exact ⟨d, t, rfl, h.1, hd, h.2⟩
      · rintro ⟨d', t', hdd, h1, htt, h2⟩
        injection hdd with hdd
        subst hdd
        rw [hd] at htt
        injection htt with htt
        subst htt
        simp only [needsFallback, hd, Bool.or_eq_false_iff, Bool.not_eq_false']
        exact ⟨h1, h2⟩

/-- C4 counterexample: when the chooser model call itself fails, the
fallback classifier's tool is not dispatched — `chat_with_bot` returns
the outer error string instead of the fallback tool's dispatch result,
so the keyword fallback is not used in every failure case the claim
lists. -/
theorem chooser_failure_no_fallback_cex :
    chat_with_bot (fun _ => Except.error "boom") (fun t _ => Except.ok ("done:" ++ t))
        "hello" = "Error in chat_with_bot: boom" ∧
    classify_intent "hello" = "qa" ∧
    runDispatch (fun t _ => Except.ok ("done:" ++ t)) (classify_intent "hello") "hello" =
      "done:qa" ∧
    chat_with_bot (fun _ => Except.error "boom") (fun t _ => Except.ok ("done:" ++ t))
        "hello" ≠
      runDispatch (fun t _ => Except.ok ("done:" ++ t)) (classify_intent "hello") "hello" := by
  refine ⟨rfl, by decide, ?_, ?_⟩ <;> decide

/-- C4 amended: the keyword fallback decides the dispatched tool exactly
when the chooser call succeeds but yields no `tool_use` block, a falsy
input, or a label outside the five-tool enum; when the chooser call
succeeds with a valid label, that label is dispatched; when the chooser
call raises, no tool is dispatched and the outer error string is
returned. -/
theorem fallback_exact_cases (chooser : Chooser) (call_tool : CallTool) (q : String) :
    (∀ e, chooser (routing_prompt q) = .error e →
      chat_with_bot chooser call_tool q = "Error in chat_with_bot: " ++ e) ∧
    (∀ content, chooser (routing_prompt q) = .ok content →
      needsFallback (extractToolUse content) = true →
      chat_with_bot chooser call_tool q =
        runDispatch call_tool (classify_intent q) q) ∧
    (∀ content, chooser (routing_prompt q) = .ok content →
      needsFallback (extractToolUse content) = false →
      ∃ d t, extractToolUse content = some d ∧ dictGet d "tool" = some t ∧
        VALID_TOOLS.contains t = true ∧
        chat_with_bot chooser call_tool q = runDispatch call_tool t q) := by
  refine ⟨?_, ?_, ?_⟩
  · intro e he
    unfold chat_with_bot
    rw [he]
  · intro content hc hf
    unfold chat_with_bot runDispatch
    rw [hc]
    simp [hf]
  · intro content hc hf
    obtain ⟨d, t, hd, hne, hget, hmem⟩ := (needsFallback_false_iff _).mp hf
    have hf' : needsFallback (some d) = false := by rw [← hd]; exact hf
    refine ⟨d, t, hd, hget, hmem, ?_⟩
    unfold chat_with_bot runDispatch
    rw [hc]
    simp [hd, hf', hget]

/-- C4 amended witness: a successful chooser response carrying the valid
label "simplify" dispatches "simplify", not the fallback. -/
theorem fallback_exact_cases_witness :
    ∃ d t, extractToolUse [ContentBlock.toolUse [("tool", "simplify"), ("reason", "r")]] =
        some d ∧
      dictGet d "tool" = some t ∧ VALID_TOOLS.contains t = true ∧
      chat_with_bot
          (fun _ => Except.ok [ContentBlock.toolUse [("tool", "simplify"), ("reason", "r")]])
          (fun tl _ => Except.ok ("done:" ++ tl)) "hello" =
        runDispatch (fun tl _ => Except.ok ("done:" ++ tl)) t "hello" :=
  (fallback_exact_cases
      (fun _ => Except.ok [ContentBlock.toolUse [("tool", "simplify"), ("reason", "r")]])
      (fun tl _ => Except.ok ("done:" ++ tl)) "hello").2.2
    [ContentBlock.toolUse [("tool", "simplify"), ("reason", "r")]] rfl (by decide)
